import Mathlib

/-!
Verification of the AirthingsMQTT bridge sketch (`AirthingsMQTTBridge.ino`).

The sketch discovers an Airthings device over BLE, connects, reads either the
Wave (four separate characteristics) or the Wave Plus (one raw binary record)
sensor data, formats each value with the Arduino `String` constructors, and
publishes the formatted strings over MQTT, finally entering a timed deep sleep.

The embedding below translates each function of the sketch into a Lean
definition.  Numeric formatting: the sketch calls `String(value, decimalPlaces)`
(the Arduino constructor, implemented with `dtostrf`, i.e. `%.<N>f`), whose
default `decimalPlaces` is 2, and `String(integer)` for plain decimal output.
All values formatted by the sketch are quotients `n / den` of a 16-bit integer
by the constants 2, 37, 50 or 100; for every such value the IEEE double (or
float) computed by the C++ code rounds to the same `N`-decimal string as the
exact rational, because the value is either exactly on the `N`-decimal grid or
at distance at least `1/7400` from a rounding boundary, far above the
floating-point error.  The formatter is therefore modelled exactly over `ℚ`,
with round-half-away-from-zero (the values in range never tie, so the tie rule
is unobservable).
-/

/-- The character of a decimal digit, as C's `'0' + d`. -/
def digitChar (d : ℕ) : Char := Char.ofNat (48 + d)

/-- Little-endian decimal digits of `n`, computed with explicit fuel
(`fuel ≥ n` suffices). -/
def toDigitsRev : ℕ → ℕ → List ℕ
  | 0, _ => []
  | fuel + 1, n => if n = 0 then [] else n % 10 :: toDigitsRev fuel (n / 10)

/-- Most-significant-first decimal digits of `n`; `0` prints as `[0]`,
as C's `%d` does. -/
def natDigitsMSB (n : ℕ) : List ℕ :=
  if n = 0 then [0] else (toDigitsRev n n).reverse

/-- Decimal character list of a natural number. -/
def natToStrList (n : ℕ) : List Char := (natDigitsMSB n).map digitChar

/-- Plain decimal rendering of a natural number: the Arduino `String(integer)`
constructors (used for the Wave Plus version / radon / co2 / voc fields). -/
def natToStr (n : ℕ) : String := ⟨natToStrList n⟩

/-- Round `q` to `d` decimal places, half away from zero, returning the scaled
integer `round(q * 10^d)`.  Models the rounding performed by `dtostrf`. -/
def roundAway (q : ℚ) (d : ℕ) : ℤ :=
  if 0 ≤ q then ⌊q * 10 ^ d + 1 / 2⌋ else -⌊-q * 10 ^ d + 1 / 2⌋

/-- The fractional digit block: `m` printed in exactly `d` digits, left-padded
with zeros (`m < 10^d`). -/
def fracPadChars (d m : ℕ) : List Char :=
  List.replicate (d - (natDigitsMSB m).length) (digitChar 0) ++ natToStrList m

/-- Character list of `q` formatted with `d` decimal places. -/
def fixedStrChars (q : ℚ) (d : ℕ) : List Char :=
  (if roundAway q d < 0 then ['-'] else []) ++
    natToStrList ((roundAway q d).natAbs / 10 ^ d) ++
      '.' :: fracPadChars d ((roundAway q d).natAbs % 10 ^ d)

/-- The Arduino `String(value, decimalPlaces)` constructor: `value` formatted
with `decimalPlaces` decimal places (via `dtostrf`; the minimum-width padding
`decimalPlaces + 2` never pads, since the output always has at least one
integer digit, the point, and the fraction block). -/
def fixedStr (q : ℚ) (d : ℕ) : String := ⟨fixedStrChars q d⟩

/-- Numeric value of a decimal digit character, `none` for non-digits. -/
def digitVal (c : Char) : Option ℕ :=
  if 48 ≤ c.toNat ∧ c.toNat ≤ 57 then some (c.toNat - 48) else none

/-- Accumulating decimal reader over characters. -/
def parseDigitsGo : ℕ → List Char → Option ℕ
  | acc, [] => some acc
  | acc, c :: cs =>
    match digitVal c with
    | some d => parseDigitsGo (acc * 10 + d) cs
    | none => none

/-- Read a non-empty block of decimal digit characters. -/
def parseDigitList (l : List Char) : Option ℕ :=
  if l.isEmpty then none else parseDigitsGo 0 l

/-- Split a character list at the first decimal point. -/
def splitDot : List Char → List Char × List Char
  | [] => ([], [])
  | c :: cs =>
    if c = '.' then ([], c :: cs)
    else ((splitDot cs).1.cons c, (splitDot cs).2)

/-- Read an unsigned decimal string, with optional fractional part. -/
def parseUnsigned (l : List Char) : Option ℚ :=
  match parseDigitList (splitDot l).1, (splitDot l).2 with
  | some iv, [] => some (iv : ℚ)
  | some iv, _ :: fp =>
    match parseDigitList fp with
    | some fv => some ((iv : ℚ) + (fv : ℚ) / 10 ^ fp.length)
    | none => none
  | none, _ => none

/-- Read a decimal string back into a rational: an independent inverse used to
state what the formatted sensor strings denote. -/
def parseDec (s : String) : Option ℚ :=
  match s.data with
  | [] => none
  | c :: cs => if c = '-' then (parseUnsigned cs).map (fun q => -q) else parseUnsigned (c :: cs)

/-- Little-endian value of a digit list. -/
def lsbVal : List ℕ → ℕ
  | [] => 0
  | d :: ds => d + 10 * lsbVal ds

/-- Most-significant-first accumulator value of a digit list. -/
def msbAcc : ℕ → List ℕ → ℕ
  | acc, [] => acc
  | acc, d :: ds => msbAcc (acc * 10 + d) ds

theorem toDigitsRev_val : ∀ (fuel n : ℕ), n ≤ fuel → lsbVal (toDigitsRev fuel n) = n := by
  intro fuel
  induction fuel with
  | zero => intro n hn; interval_cases n; simp [toDigitsRev, lsbVal]
  | succ f ih =>
    intro n hn
    by_cases h0 : n = 0
    · simp [toDigitsRev, h0, lsbVal]
    · have hlt : n / 10 < n := Nat.div_lt_self (Nat.pos_of_ne_zero h0) (by norm_num)
      have : n / 10 ≤ f := by omega
      simp only [toDigitsRev, h0, if_false, lsbVal, ih _ this]
      omega

theorem toDigitsRev_lt : ∀ (fuel n : ℕ), ∀ d ∈ toDigitsRev fuel n, d < 10 := by
  intro fuel
  induction fuel with
  | zero => intro n d hd; simp [toDigitsRev] at hd
  | succ f ih =>
    intro n d hd
    by_cases h0 : n = 0
    · simp [toDigitsRev, h0] at hd
    · simp only [toDigitsRev, h0, if_false, List.mem_cons] at hd
      rcases hd with h | h
      · omega
      · exact ih _ _ h

theorem toDigitsRev_length_le : ∀ (fuel n k : ℕ), n ≤ fuel → n < 10 ^ k →
    (toDigitsRev fuel n).length ≤ k := by
  intro fuel
  induction fuel with
  | zero => intro n k hn hk; interval_cases n; simp [toDigitsRev]
  | succ f ih =>
    intro n k hn hk
    by_cases h0 : n = 0
    · simp [toDigitsRev, h0]
    · have hk0 : k ≠ 0 := by
        intro h; rw [h] at hk; simp at hk; omega
      obtain ⟨k2, rfl⟩ := Nat.exists_eq_succ_of_ne_zero hk0
      have hdiv : n / 10 < 10 ^ k2 := by
        rw [Nat.div_lt_iff_lt_mul (by norm_num)]
        calc n < 10 ^ (k2 + 1) := hk
        _ = 10 ^ k2 * 10 := by ring
      have hfuel : n / 10 ≤ f := by
        have : n / 10 < n := Nat.div_lt_self (Nat.pos_of_ne_zero h0) (by norm_num)
        omega
      simp only [toDigitsRev, h0, if_false, List.length_cons]
      exact Nat.succ_le_succ (ih _ _ hfuel hdiv)

theorem natDigitsMSB_ne_nil (n : ℕ) : natDigitsMSB n ≠ [] := by
  unfold natDigitsMSB
  by_cases h0 : n = 0
  · simp [h0]
  · simp only [h0, if_false, ne_eq, List.reverse_eq_nil_iff]
    cases hn : toDigitsRev n n with
    | nil =>
      exfalso
      have := toDigitsRev_val n n le_rfl
      rw [hn] at this
      simp [lsbVal] at this
      exact h0 this.symm
    | cons a l => simp

theorem natDigitsMSB_lt (n : ℕ) : ∀ d ∈ natDigitsMSB n, d < 10 := by
  unfold natDigitsMSB
  by_cases h0 : n = 0
  · simp [h0]
  · simp only [h0, if_false, List.mem_reverse]
    exact toDigitsRev_lt n n

theorem natDigitsMSB_val (n : ℕ) : lsbVal (natDigitsMSB n).reverse = n := by
  unfold natDigitsMSB
  by_cases h0 : n = 0
  · simp [h0, lsbVal]
  · simp only [h0, if_false, List.reverse_reverse]
    exact toDigitsRev_val n n le_rfl

theorem natDigitsMSB_length_le (n k : ℕ) (hk : 1 ≤ k) (h : n < 10 ^ k) :
    (natDigitsMSB n).length ≤ k := by
  unfold natDigitsMSB
  by_cases h0 : n = 0
  · simpa [h0] using hk
  · simp only [h0, if_false, List.length_reverse]
    exact toDigitsRev_length_le n n k le_rfl h

theorem digitVal_digitChar {d : ℕ} (h : d < 10) : digitVal (digitChar d) = some d := by
  interval_cases d <;> decide

theorem digitChar_ne_dot {d : ℕ} (h : d < 10) : digitChar d ≠ '.' := by
  interval_cases d <;> decide

theorem digitChar_ne_minus {d : ℕ} (h : d < 10) : digitChar d ≠ '-' := by
  interval_cases d <;> decide

theorem parseDigitsGo_digits : ∀ (ds : List ℕ) (acc : ℕ), (∀ d ∈ ds, d < 10) →
    parseDigitsGo acc (ds.map digitChar) = some (msbAcc acc ds) := by
  intro ds
  induction ds with
  | nil => intro acc h; simp [parseDigitsGo, msbAcc]
  | cons d ds ih =>
    intro acc h
    have hd : d < 10 := h d (by simp)
    simp only [List.map_cons, parseDigitsGo, digitVal_digitChar hd, msbAcc]
    exact ih _ (fun x hx => h x (by simp [hx]))

theorem lsbVal_append_singleton : ∀ (l : List ℕ) (d : ℕ),
    lsbVal (l ++ [d]) = lsbVal l + d * 10 ^ l.length := by
  intro l
  induction l with
  | nil => intro d; simp [lsbVal]
  | cons a l ih =>
    intro d
    simp only [List.cons_append, lsbVal, List.append_eq, ih, List.length_cons]
    ring

theorem msbAcc_eq : ∀ (ds : List ℕ) (acc : ℕ),
    msbAcc acc ds = acc * 10 ^ ds.length + lsbVal ds.reverse := by
  intro ds
  induction ds with
  | nil => intro acc; simp [msbAcc, lsbVal]
  | cons d ds ih =>
    intro acc
    simp only [msbAcc, ih, List.reverse_cons, lsbVal_append_singleton, List.length_cons,
      List.length_reverse]
    ring

theorem parseDigitList_natToStrList (n : ℕ) : parseDigitList (natToStrList n) = some n := by
  unfold parseDigitList natToStrList
  have hne : (natDigitsMSB n).map digitChar ≠ [] := by
    simpa using natDigitsMSB_ne_nil n
  rw [if_neg (by simpa [List.isEmpty_iff] using hne)]
  rw [parseDigitsGo_digits _ _ (natDigitsMSB_lt n), msbAcc_eq]
  simp [natDigitsMSB_val]

theorem parseDigitsGo_zeros : ∀ (k : ℕ) (l : List Char),
    parseDigitsGo 0 (List.replicate k (digitChar 0) ++ l) = parseDigitsGo 0 l := by
  intro k
  induction k with
  | zero => intro l; simp
  | succ k ih =>
    intro l
    simp only [List.replicate_succ, List.cons_append, parseDigitsGo]
    have : digitVal (digitChar 0) = some 0 := by decide
    rw [this]
    simpa using ih l

theorem parseDigitList_fracPad (d m : ℕ) : parseDigitList (fracPadChars d m) = some m := by
  unfold parseDigitList fracPadChars
  have hne : natToStrList m ≠ [] := by
    unfold natToStrList; simpa using natDigitsMSB_ne_nil m
  rw [if_neg]
  · rw [parseDigitsGo_zeros]
    have := parseDigitList_natToStrList m
    unfold parseDigitList at this
    rwa [if_neg (by simpa [List.isEmpty_iff] using hne)] at this
  · simp only [List.isEmpty_iff, List.append_eq_nil, not_and]
    intro _ h2
    exact hne h2

theorem fracPadChars_length (d m : ℕ) (hd : 1 ≤ d) (hm : m < 10 ^ d) :
    (fracPadChars d m).length = d := by
  unfold fracPadChars natToStrList
  have hlen : (natDigitsMSB m).length ≤ d := natDigitsMSB_length_le m d hd hm
  simp only [List.length_append, List.length_replicate, List.length_map]
  omega

theorem splitDot_no_dot : ∀ (l : List Char), (∀ c ∈ l, c ≠ '.') → splitDot l = (l, []) := by
  intro l
  induction l with
  | nil => intro h; rfl
  | cons c cs ih =>
    intro h
    have hc : c ≠ '.' := h c (by simp)
    simp only [splitDot, if_neg hc, ih (fun x hx => h x (by simp [hx]))]

theorem splitDot_append_dot : ∀ (l1 l2 : List Char), (∀ c ∈ l1, c ≠ '.') →
    splitDot (l1 ++ '.' :: l2) = (l1, '.' :: l2) := by
  intro l1
  induction l1 with
  | nil => intro l2 h; simp [splitDot]
  | cons c cs ih =>
    intro l2 h
    have hc : c ≠ '.' := h c (by simp)
    simp only [List.cons_append, splitDot, if_neg hc, List.append_eq,
      ih l2 (fun x hx => h x (by simp [hx]))]

theorem natToStrList_no_dot (n : ℕ) : ∀ c ∈ natToStrList n, c ≠ '.' := by
  intro c hc
  simp only [natToStrList, List.mem_map] at hc
  obtain ⟨dd, hdd, rfl⟩ := hc
  exact digitChar_ne_dot (natDigitsMSB_lt n dd hdd)

theorem parseUnsigned_append (I F d : ℕ) (hd : 1 ≤ d) (hF : F < 10 ^ d) :
    parseUnsigned (natToStrList I ++ '.' :: fracPadChars d F) =
      some ((I : ℚ) + (F : ℚ) / 10 ^ d) := by
  unfold parseUnsigned
  rw [splitDot_append_dot _ _ (natToStrList_no_dot I)]
  simp only [parseDigitList_natToStrList I, parseDigitList_fracPad d F,
    fracPadChars_length d F hd hF]

theorem parseUnsigned_natToStrList (n : ℕ) :
    parseUnsigned (natToStrList n) = some (n : ℚ) := by
  unfold parseUnsigned
  rw [splitDot_no_dot _ (natToStrList_no_dot n)]
  simp only [parseDigitList_natToStrList n]

theorem natToStrList_cons (n : ℕ) : ∃ d0 ds, natToStrList n = digitChar d0 :: ds ∧ d0 < 10 := by
  obtain ⟨d0, ds, hds⟩ := List.exists_cons_of_ne_nil (natDigitsMSB_ne_nil n)
  refine ⟨d0, ds.map digitChar, ?_, ?_⟩
  · simp [natToStrList, hds]
  · exact natDigitsMSB_lt n d0 (by rw [hds]; simp)

theorem parseDec_cons (c : Char) (cs : List Char) :
    parseDec ⟨c :: cs⟩ =
      if c = '-' then (parseUnsigned cs).map (fun q => -q) else parseUnsigned (c :: cs) := rfl

theorem parseDec_natToStr (n : ℕ) : parseDec (natToStr n) = some (n : ℚ) := by
  obtain ⟨d0, ds, hds, hd0⟩ := natToStrList_cons n
  have hstr : natToStr n = String.mk (digitChar d0 :: ds) := by
    unfold natToStr
    rw [hds]
  rw [hstr, parseDec_cons, if_neg (digitChar_ne_minus hd0), ← hds]
  exact parseUnsigned_natToStrList n

theorem parseDec_fixedStr (q : ℚ) (d : ℕ) (hd : 1 ≤ d) :
    parseDec (fixedStr q d) = some ((roundAway q d : ℚ) / 10 ^ d) := by
  have hpow : 0 < (10:ℕ) ^ d := pow_pos (by norm_num) d
  have hF : (roundAway q d).natAbs % 10 ^ d < 10 ^ d := Nat.mod_lt _ hpow
  have hmain := parseUnsigned_append ((roundAway q d).natAbs / 10 ^ d)
    ((roundAway q d).natAbs % 10 ^ d) d hd hF
  have hmod : (10:ℕ) ^ d * ((roundAway q d).natAbs / 10 ^ d) +
      (roundAway q d).natAbs % 10 ^ d = (roundAway q d).natAbs :=
    Nat.div_add_mod _ _
  have hcast := congrArg (fun m : ℕ => (m : ℚ)) hmod
  push_cast at hcast
  have h10 : ((10:ℚ) ^ d) ≠ 0 := by positivity
  have hval : (((roundAway q d).natAbs / 10 ^ d : ℕ) : ℚ) +
      (((roundAway q d).natAbs % 10 ^ d : ℕ) : ℚ) / 10 ^ d =
      ((roundAway q d).natAbs : ℚ) / 10 ^ d := by
    field_simp
    linarith [hcast]
  by_cases hneg : roundAway q d < 0
  · have habs : ((roundAway q d).natAbs : ℚ) = -((roundAway q d : ℤ) : ℚ) := by
      have h2 : |roundAway q d| = -roundAway q d := abs_of_neg hneg
      rw [Int.cast_natAbs, h2]
      push_cast
      ring
    have hstr : fixedStr q d = String.mk ('-' ::
        (natToStrList ((roundAway q d).natAbs / 10 ^ d) ++
          '.' :: fracPadChars d ((roundAway q d).natAbs % 10 ^ d))) := by
      show String.mk (fixedStrChars q d) = _
      unfold fixedStrChars
      rw [if_pos hneg]
      rfl
    rw [hstr, parseDec_cons, if_pos rfl, hmain]
    simp only [Option.map_some']
    rw [hval, habs]
    ring_nf
  · have habs : ((roundAway q d).natAbs : ℚ) = ((roundAway q d : ℤ) : ℚ) := by
      have h2 : |roundAway q d| = roundAway q d := abs_of_nonneg (not_lt.mp hneg)
      rw [Int.cast_natAbs, h2]
    obtain ⟨d0, ds, hds, hd0⟩ := natToStrList_cons ((roundAway q d).natAbs / 10 ^ d)
    have hstr : fixedStr q d = String.mk (digitChar d0 ::
        (ds ++ '.' :: fracPadChars d ((roundAway q d).natAbs % 10 ^ d))) := by
      show String.mk (fixedStrChars q d) = _
      unfold fixedStrChars
      rw [if_neg hneg, hds]
      rfl
    rw [hstr, parseDec_cons, if_neg (digitChar_ne_minus hd0)]
    have hlist : digitChar d0 :: (ds ++ '.' :: fracPadChars d ((roundAway q d).natAbs % 10 ^ d)) =
        natToStrList ((roundAway q d).natAbs / 10 ^ d) ++
          '.' :: fracPadChars d ((roundAway q d).natAbs % 10 ^ d) := by
      rw [hds]
      rfl
    rw [hlist, hmain, hval, habs]

theorem floor_half : ⌊(1 / 2 : ℚ)⌋ = 0 := by
  rw [Int.floor_eq_zero_iff]
  constructor <;> norm_num

theorem roundAway_grid (z : ℤ) (d : ℕ) : roundAway ((z : ℚ) / 10 ^ d) d = z := by
  have hpow : (0:ℚ) < 10 ^ d := by positivity
  have hmul : (z : ℚ) / 10 ^ d * 10 ^ d = (z : ℚ) := div_mul_cancel₀ _ (ne_of_gt hpow)
  unfold roundAway
  by_cases hz : 0 ≤ (z : ℚ) / 10 ^ d
  · rw [if_pos hz, hmul, add_comm, Int.floor_add_int, floor_half, zero_add]
  · rw [if_neg hz]
    have hmul2 : -((z:ℚ) / 10 ^ d) * 10 ^ d = ((-z : ℤ) : ℚ) := by
      push_cast
      field_simp
    rw [hmul2, add_comm, Int.floor_add_int, floor_half, zero_add, neg_neg]

theorem roundAway_close (q : ℚ) (d : ℕ) :
    |(roundAway q d : ℚ) / 10 ^ d - q| ≤ 1 / (2 * 10 ^ d) := by
  have hpow : (0:ℚ) < 10 ^ d := by positivity
  have key : ∀ x : ℚ, |(⌊x + 1 / 2⌋ : ℚ) - x| ≤ 1 / 2 := by
    intro x
    have h1 : (⌊x + 1 / 2⌋ : ℚ) ≤ x + 1 / 2 := Int.floor_le _
    have h2 : x + 1 / 2 < (⌊x + 1 / 2⌋ : ℚ) + 1 := Int.lt_floor_add_one _
    rw [abs_le]
    constructor <;> linarith
  have main : ∀ z : ℤ, |(z : ℚ) - q * 10 ^ d| ≤ 1 / 2 →
      |(z : ℚ) / 10 ^ d - q| ≤ 1 / (2 * 10 ^ d) := by
    intro z hz
    have heq : (z : ℚ) / 10 ^ d - q = ((z : ℚ) - q * 10 ^ d) / 10 ^ d := by
      field_simp
      ring
    rw [heq, abs_div, abs_of_pos hpow,
      show (1:ℚ) / (2 * 10 ^ d) = (1 / 2) / 10 ^ d from by ring]
    exact (div_le_div_iff_of_pos_right hpow).mpr hz
  unfold roundAway
  by_cases hq : 0 ≤ q
  · rw [if_pos hq]
    exact main _ (key (q * 10 ^ d))
  · rw [if_neg hq]
    apply main
    push_cast
    have hkey := key (-q * 10 ^ d)
    have hflip : -(⌊-q * 10 ^ d + 1 / 2⌋ : ℚ) - q * 10 ^ d =
        -((⌊-q * 10 ^ d + 1 / 2⌋ : ℚ) - -q * 10 ^ d) := by ring
    rw [hflip, abs_neg]
    exact hkey

theorem parseDec_fixedStr_grid (z : ℤ) (d : ℕ) (hd : 1 ≤ d) :
    parseDec (fixedStr ((z : ℚ) / 10 ^ d) d) = some ((z : ℚ) / 10 ^ d) := by
  rw [parseDec_fixedStr _ _ hd, roundAway_grid]

theorem parseDec_fixedStr_close (q : ℚ) (d : ℕ) (hd : 1 ≤ d) :
    ∃ r : ℚ, parseDec (fixedStr q d) = some r ∧ |r - q| ≤ 1 / (2 * 10 ^ d) :=
  ⟨_, parseDec_fixedStr q d hd, roundAway_close q d⟩


/-! ## The data model of the sketch -/

/-- `AirthingsProduct` enumeration (`WAVE` = VariantA, `WAVEPLUS` = VariantB). -/
inductive AirthingsProduct
  | WAVE
  | WAVEPLUS
deriving DecidableEq, Fintype

/-- The advertised service UUID of the Wave (`waveServiceUUID` in the sketch). -/
def waveServiceUUID : String := "b42e1f6e-ade7-11e4-89d3-123b93f75cba"

/-- The advertised service UUID of the Wave Plus (`wavePlusServiceUUID`). -/
def wavePlusServiceUUID : String := "b42e1c08-ade7-11e4-89d3-123b93f75cba"

/-- The decoded readings struct (`WaveReadings`): formatted decimal strings.
C++ `String` members default-construct empty. -/
structure WaveReadings where
  version : String := ""
  humidity : String := ""
  ambientLight : String := ""
  radon : String := ""
  radonLongterm : String := ""
  temperature : String := ""
  pressure : String := ""
  co2 : String := ""
  voc : String := ""
deriving DecidableEq

instance : Inhabited WaveReadings := ⟨{}⟩

/-- A connected remote GATT service, as the sketch uses it: the result of each
`getCharacteristic` lookup it performs, `none` modelling a `nullptr` handle.
For the four Wave characteristics the sketch calls `readUInt16()`, so a present
handle carries the 16-bit register value; for the single Wave Plus
characteristic (`characteristicUUID`) the sketch calls `readRawData()`, so a
present handle carries the raw byte buffer, `none` modelling a null buffer
pointer. -/
structure RemoteService where
  temperatureChar : Option ℕ := none
  humidityChar : Option ℕ := none
  radon24Char : Option ℕ := none
  radonLongTermChar : Option ℕ := none
  wavePlusChar : Option (Option (List ℕ)) := none
deriving DecidableEq

instance : Inhabited RemoteService := ⟨{}⟩

/-- Reinterpret a 16-bit register as a signed 16-bit integer: the C cast
`(short)x` applied by the sketch to the Wave temperature register. -/
def toShort (x : ℕ) : ℤ := if x < 32768 then (x : ℤ) else (x : ℤ) - 65536

/-- `BECQUERELS_M2_TO_PICOCURIES_L` (the sketch divides radon registers by it). -/
def BECQUERELS_M2_TO_PICOCURIES_L : ℚ := 37

/-- `readWaveSensors`: fetches the four Wave characteristics; if any handle is
`nullptr` it logs and returns `false` without touching `readings`; otherwise it
stores the four formatted values and returns `true`.  `String(x / 37.0)` uses
the default 2 decimal places of the `String(double)` constructor. -/
def readWaveSensors (svc : RemoteService) (readings : WaveReadings) : Bool × WaveReadings :=
  match svc.temperatureChar, svc.humidityChar, svc.radon24Char, svc.radonLongTermChar with
  | some t, some h, some r24, some rlt =>
    (true, { readings with
      temperature := fixedStr ((toShort t : ℚ) / 100) 2
      humidity := fixedStr ((h : ℚ) / 100) 2
      radon := fixedStr ((r24 : ℚ) / BECQUERELS_M2_TO_PICOCURIES_L) 2
      radonLongterm := fixedStr ((rlt : ℚ) / BECQUERELS_M2_TO_PICOCURIES_L) 2 })
  | _, _, _, _ => (false, readings)

/-- Byte of the raw buffer at offset `i` (`uint8_t` pointer indexing). -/
def byteAt (bytes : List ℕ) (i : ℕ) : ℕ := bytes.getD i 0

/-- Little-endian 16-bit field at offset `i` of the raw buffer (the ESP32 is
little-endian, so a `uint16_t` struct member overlays two bytes this way). -/
def le16 (bytes : List ℕ) (i : ℕ) : ℕ := byteAt bytes i + 256 * byteAt bytes (i + 1)

/-- `WavePlusRawReadings`: the packed struct the sketch overlays on the raw
buffer.  With the ESP32's natural alignment the `uint8_t` quadruple occupies
bytes 0–3 and the six `uint16_t` members occupy bytes 4–15, so the record spans
16 bytes. -/
structure WavePlusRawReadings where
  version : ℕ
  humidity : ℕ
  ambientLight : ℕ
  unused01 : ℕ
  radon : ℕ
  radonLongterm : ℕ
  temperature : ℕ
  pressure : ℕ
  co2 : ℕ
  voc : ℕ
deriving DecidableEq

/-- The reinterpret-cast `(WavePlusRawReadings *)pRawdata` performed by the
sketch, made explicit: each struct member read from its byte offset under the
ESP32's little-endian naturally-packed layout. -/
def parseWavePlusRaw (bytes : List ℕ) : WavePlusRawReadings where
  version := byteAt bytes 0
  humidity := byteAt bytes 1
  ambientLight := byteAt bytes 2
  unused01 := byteAt bytes 3
  radon := le16 bytes 4
  radonLongterm := le16 bytes 6
  temperature := le16 bytes 8
  pressure := le16 bytes 10
  co2 := le16 bytes 12
  voc := le16 bytes 14

/-- `readWavePlusSensors`: fetches the single Wave Plus characteristic and its
raw buffer.  The sketch calls `pCharacteristic->readValue()` *before* any null
check, so a `nullptr` characteristic handle is dereferenced — modelled as the
`none` (crash) outcome.  A null raw-data buffer is checked and reported as
`false`.  On success every field of `readings` is overwritten. -/
def readWavePlusSensors (svc : RemoteService) (readings : WaveReadings) :
    Option (Bool × WaveReadings) :=
  match svc.wavePlusChar with
  | none => none
  | some rawdata =>
    match rawdata with
    | none => some (false, readings)
    | some bytes =>
      some (true,
        { version := natToStr (parseWavePlusRaw bytes).version
          humidity := fixedStr (((parseWavePlusRaw bytes).humidity : ℚ) / 2) 2
          ambientLight := natToStr (parseWavePlusRaw bytes).ambientLight
          radon := natToStr (parseWavePlusRaw bytes).radon
          radonLongterm := natToStr (parseWavePlusRaw bytes).radonLongterm
          temperature := fixedStr (((parseWavePlusRaw bytes).temperature : ℚ) / 100) 2
          pressure := fixedStr (((parseWavePlusRaw bytes).pressure : ℚ) / 50) 1
          co2 := natToStr (parseWavePlusRaw bytes).co2
          voc := natToStr (parseWavePlusRaw bytes).voc })

/-- The two variant-specific read procedures. -/
inductive ReadProcedure
  | wave
  | wavePlus
deriving DecidableEq

/-- The read procedures the `switch` statement of `readSensors` executes for a
given product: the `case WAVE:` branch has no `break`, so after
`readWaveSensors` control falls through into `case WAVEPLUS:` and
`readWavePlusSensors` runs as well. -/
def readSensorsRuns : AirthingsProduct → List ReadProcedure
  | .WAVE => [.wave, .wavePlus]
  | .WAVEPLUS => [.wavePlus]

/-- `readSensors`: dispatch on the product.  In the `WAVE` case the missing
`break` means `retval` is first assigned from `readWaveSensors` and then
overwritten by the fall-through call to `readWavePlusSensors`, which also runs
on the same service and may overwrite `readings`. -/
def readSensors (product : AirthingsProduct) (svc : RemoteService) (readings : WaveReadings) :
    Option (Bool × WaveReadings) :=
  match product with
  | .WAVE => readWavePlusSensors svc (readWaveSensors svc readings).2
  | .WAVEPLUS => readWavePlusSensors svc readings

/-! ## Publish pipeline and acquisition -/

/-- The MQTT topics the sketch publishes to (one per `#define TOPIC_...`). -/
inductive Topic
  | radon24
  | radonLifetime
  | temperature
  | humidity
  | pressure
  | co2
  | voc
  | version
  | ambientLight
deriving DecidableEq, Fintype

/-- The topic strings of the `#define`s. -/
def topicName : Topic → String
  | .radon24 => "airthings/radon24hour"
  | .radonLifetime => "airthings/radonLifetime"
  | .temperature => "airthings/temperature"
  | .humidity => "airthings/humidity"
  | .pressure => "airthings/pressure"
  | .co2 => "airthings/co2"
  | .voc => "airthings/voc"
  | .version => "airthings/version"
  | .ambientLight => "airthings/ambientlight"

/-- The broker's response to each `mqtt.publish(...)` call, one flag per topic
(`true` = that publish would succeed if attempted). -/
structure PubResults where
  radon24 : Bool
  radonLifetime : Bool
  temperature : Bool
  humidity : Bool
  pressure : Bool
  co2 : Bool
  voc : Bool
  version : Bool
  ambientLight : Bool
deriving DecidableEq

/-- Outcome of `mqtt.publish` on a given topic. -/
def pubOk (p : PubResults) : Topic → Bool
  | .radon24 => p.radon24
  | .radonLifetime => p.radonLifetime
  | .temperature => p.temperature
  | .humidity => p.humidity
  | .pressure => p.pressure
  | .co2 => p.co2
  | .voc => p.voc
  | .version => p.version
  | .ambientLight => p.ambientLight

/-- One `!publish(...) || !publish(...) || ...` chain: C++ `||` evaluates left
to right and short-circuits, so topics are attempted in order and the first
failed publish stops all later attempts.  Returns whether the whole chain
succeeded together with the list of topics actually attempted. -/
def attemptPublishes (p : PubResults) : List Topic → Bool × List Topic
  | [] => (true, [])
  | t :: ts =>
    if pubOk p t then ((attemptPublishes p ts).1, t :: (attemptPublishes p ts).2)
    else (false, [t])

/-- The four topics of the first (unconditional) publish block, in source
order. -/
def mandatoryTopics : List Topic := [.radon24, .radonLifetime, .temperature, .humidity]

/-- The five topics of the `airthingsProduct == WAVEPLUS` publish block, in
source order. -/
def wavePlusTopics : List Topic := [.pressure, .co2, .voc, .version, .ambientLight]

/-- The publishing section of `getAndRecordReadings` (lines 277–298): the
mandatory block runs first and returns `false` on its first failure; the
Wave Plus block runs only for `WAVEPLUS`, likewise returning `false` on its
first failure; otherwise the function reaches `return true`. -/
def publishStage (p : PubResults) (product : AirthingsProduct) : Bool × List Topic :=
  if (attemptPublishes p mandatoryTopics).1 = false then
    (false, (attemptPublishes p mandatoryTopics).2)
  else
    match product with
    | .WAVEPLUS =>
      ((attemptPublishes p wavePlusTopics).1,
        (attemptPublishes p mandatoryTopics).2 ++ (attemptPublishes p wavePlusTopics).2)
    | .WAVE => (true, (attemptPublishes p mandatoryTopics).2)

/-- All topics a full publish pass would cover for a product, in attempt
order. -/
def topicsFor (product : AirthingsProduct) : List Topic :=
  mandatoryTopics ++ (match product with | .WAVEPLUS => wavePlusTopics | .WAVE => [])

/-- The external world of one `getAndRecordReadings` call: whether
`client->connect` succeeds, what `client->getService` returns for each of the
two service UUIDs, whether WiFi comes up within the wait window, whether
`mqtt.connect` succeeds, and the broker's response per topic. -/
structure Env where
  connectOk : Bool
  waveService : Option RemoteService
  wavePlusService : Option RemoteService
  wifiOk : Bool
  mqttOk : Bool
  pubResults : PubResults

/-- Service selection (lines 216–229): `airthingsProduct` starts as `WAVE`;
if the Wave service is absent the sketch switches to the Wave Plus service and
sets the product to `WAVEPLUS`. -/
def selectService (env : Env) : AirthingsProduct × Option RemoteService :=
  match env.waveService with
  | some svc => (.WAVE, some svc)
  | none => (.WAVEPLUS, env.wavePlusService)

/-- Observable outcome of one `getAndRecordReadings` call: its return value,
whether the BLE connection is still open when it returns, and the topics whose
publication was attempted. -/
structure AcqResult where
  retval : Bool
  connOpenAtReturn : Bool
  attempted : List Topic
deriving DecidableEq

/-- `getAndRecordReadings`: connect (failure returns `false`, no connection
opened); select the service (absence disconnects and returns `false`); run
`readSensors` on a default-constructed `WaveReadings` (a crash propagates as
`none`; a `false` result returns *without* calling `client->disconnect()`, so
the connection stays open); on success disconnect, wait for WiFi, connect to
the broker, and run the publish blocks. -/
def getAndRecordReadings (env : Env) : Option AcqResult :=
  if env.connectOk = false then
    some { retval := false, connOpenAtReturn := false, attempted := [] }
  else
    match (selectService env).2 with
    | none => some { retval := false, connOpenAtReturn := false, attempted := [] }
    | some svc =>
      match readSensors (selectService env).1 svc {} with
      | none => none
      | some (false, _) => some { retval := false, connOpenAtReturn := true, attempted := [] }
      | some (true, _) =>
        if env.wifiOk = false then
          some { retval := false, connOpenAtReturn := false, attempted := [] }
        else if env.mqttOk = false then
          some { retval := false, connOpenAtReturn := false, attempted := [] }
        else
          some { retval := (publishStage env.pubResults (selectService env).1).1
                 connOpenAtReturn := false
                 attempted := (publishStage env.pubResults (selectService env).1).2 }

/-! ## Discovery and the duty-cycle controller -/

/-- One advertisement delivered to the scan callback. -/
structure Device where
  haveServiceUUID : Bool
  serviceUUID : String
  address : String
deriving DecidableEq

/-- The state of `FoundDeviceCallback`, plus whether `scan->stop()` has been
called (after which no further advertisements are delivered). -/
structure ScanState where
  found : Bool
  address : Option String
  stopped : Bool
deriving DecidableEq

/-- The callback's initial state: `found = false`, `address` unassigned. -/
def initScanState : ScanState := { found := false, address := none, stopped := false }

/-- The UUID filter of `FoundDeviceCallback::onResult`. -/
def matchesAirthings (device : Device) : Bool :=
  (device.haveServiceUUID && (device.serviceUUID == waveServiceUUID)) ||
    (device.haveServiceUUID && (device.serviceUUID == wavePlusServiceUUID))

/-- `FoundDeviceCallback::onResult`: on a matching advertisement it stops the
scan, records the address, and sets `found`. -/
def onResult (st : ScanState) (device : Device) : ScanState :=
  if matchesAirthings device then
    { found := true, address := some device.address, stopped := true }
  else st

/-- The scan window: advertisements are delivered in order until the window
closes or `stop()` is called. -/
def runScan : List Device → ScanState → ScanState
  | [], st => st
  | device :: rest, st => if st.stopped then st else runScan rest (onResult st device)

/-- `READ_WAIT_SECONDS`: the normal cycle interval. -/
def READ_WAIT_SECONDS : ℕ := 60 * 60

/-- `READ_WAIT_RETRY_SECONDS`: the retry interval after any failure. -/
def READ_WAIT_RETRY_SECONDS : ℕ := 30

/-- Where a cycle can crash instead of completing. -/
inductive CrashSite
  | nullCharacteristic
  | uninitAddress
deriving DecidableEq, Fintype

/-- How one wake cycle of `setup()` ends: either
`esp_sleep_enable_timer_wakeup(seconds)` + deep sleep, or a crash. -/
inductive CycleOutcome
  | sleepSeconds (seconds : ℕ)
  | crash (site : CrashSite)
deriving DecidableEq

/-- One wake cycle of `setup()`: scan; if nothing was found sleep for the retry
interval; otherwise call `callback->getAddress()` (dereferencing the recorded
address pointer — uninitialised if no device was stored) and run
`getAndRecordReadings`, sleeping `READ_WAIT_SECONDS` on success and
`READ_WAIT_RETRY_SECONDS` on failure. -/
def setupCycle (devices : List Device) (env : Env) : CycleOutcome :=
  if (runScan devices initScanState).found = false then
    .sleepSeconds READ_WAIT_RETRY_SECONDS
  else
    match (runScan devices initScanState).address with
    | none => .crash .uninitAddress
    | some _ =>
      match getAndRecordReadings env with
      | none => .crash .nullCharacteristic
      | some res =>
        if res.retval then .sleepSeconds READ_WAIT_SECONDS
        else .sleepSeconds READ_WAIT_RETRY_SECONDS

/-! ## Concrete devices, services and environments used in the theorems -/

/-- A Wave service as a real Wave exposes it: the four Wave characteristics
present, the Wave Plus characteristic absent (`getCharacteristic` returns
`nullptr` for it). -/
def svcWaveOnly : RemoteService :=
  { temperatureChar := some 2150, humidityChar := some 4550, radon24Char := some 185,
    radonLongTermChar := some 222, wavePlusChar := none }

/-- A Wave service on which the Wave Plus characteristic lookup yields a handle
whose raw-data buffer is null. -/
def svcWaveBufNull : RemoteService :=
  { temperatureChar := some 2150, humidityChar := some 4550, radon24Char := some 185,
    radonLongTermChar := some 222, wavePlusChar := some none }

/-- A Wave Plus service whose characteristic returns a null raw-data buffer. -/
def svcPlusBufNull : RemoteService := { wavePlusChar := some none }

/-- A Wave Plus raw record: version 1, humidity 91, ambient light 5, radon 64,
long-term radon 34, temperature 2150, pressure 8000 (bytes `0x40 0x1F`),
co2 456, voc 123. -/
def wpBytes : List ℕ := [1, 91, 5, 0, 64, 0, 34, 0, 102, 8, 64, 31, 200, 1, 123, 0]

/-- A healthy Wave Plus service. -/
def svcPlusGood : RemoteService := { wavePlusChar := some (some wpBytes) }

/-- A broker that accepts every publish. -/
def pubAll : PubResults :=
  { radon24 := true, radonLifetime := true, temperature := true, humidity := true,
    pressure := true, co2 := true, voc := true, version := true, ambientLight := true }

/-- Environment in which the sensor read fails (null raw buffer) after a
successful connect and service lookup. -/
def envLeak : Env :=
  { connectOk := true, waveService := none, wavePlusService := some svcPlusBufNull,
    wifiOk := true, mqttOk := true, pubResults := pubAll }

/-- Environment of a real Wave device: connect succeeds, the Wave service is
present with all four Wave characteristics, and the Wave Plus characteristic is
absent from it. -/
def envCrash : Env :=
  { connectOk := true, waveService := some svcWaveOnly, wavePlusService := none,
    wifiOk := true, mqttOk := true, pubResults := pubAll }

/-- Environment of a healthy Wave Plus cycle. -/
def envHappy : Env :=
  { connectOk := true, waveService := none, wavePlusService := some svcPlusGood,
    wifiOk := true, mqttOk := true, pubResults := pubAll }

/-- An advertisement from a Wave. -/
def devWave : Device :=
  { haveServiceUUID := true, serviceUUID := waveServiceUUID, address := "11:22" }

/-- An advertisement from a Wave Plus. -/
def devPlus : Device :=
  { haveServiceUUID := true, serviceUUID := wavePlusServiceUUID, address := "aa:bb" }

/-- An advertisement from an unrelated device. -/
def devOther : Device :=
  { haveServiceUUID := true, serviceUUID := "1234", address := "cc:dd" }

/-! ## Specialised decoding lemmas -/

theorem parseDec_fixedStr_div100 (z : ℤ) :
    parseDec (fixedStr ((z : ℚ) / 100) 2) = some ((z : ℚ) / 100) := by
  have h : ((z : ℚ) / 100) = (z : ℚ) / 10 ^ 2 := by norm_num
  rw [h, parseDec_fixedStr_grid z 2 (by norm_num)]

theorem parseDec_fixedStr_nat100 (n : ℕ) :
    parseDec (fixedStr ((n : ℚ) / 100) 2) = some ((n : ℚ) / 100) := by
  have h : ((n : ℚ)) = ((n : ℤ) : ℚ) := by push_cast; rfl
  rw [h]
  exact parseDec_fixedStr_div100 n

theorem parseDec_fixedStr_half (n : ℕ) :
    parseDec (fixedStr ((n : ℚ) / 2) 2) = some ((n : ℚ) / 2) := by
  have h : ((n : ℚ) / 2) = (((50 * n : ℕ) : ℤ) : ℚ) / 10 ^ 2 := by
    push_cast
    ring
  rw [h, parseDec_fixedStr_grid _ 2 (by norm_num)]

theorem parseDec_fixedStr_close2 (q : ℚ) :
    ∃ r, parseDec (fixedStr q 2) = some r ∧ |r - q| ≤ 1 / 200 := by
  obtain ⟨r, h1, h2⟩ := parseDec_fixedStr_close q 2 (by norm_num)
  refine ⟨r, h1, ?_⟩
  have he : (1 : ℚ) / (2 * 10 ^ 2) = 1 / 200 := by norm_num
  rwa [he] at h2

theorem parseDec_fixedStr_close1 (q : ℚ) :
    ∃ r, parseDec (fixedStr q 1) = some r ∧ |r - q| ≤ 1 / 20 := by
  obtain ⟨r, h1, h2⟩ := parseDec_fixedStr_close q 1 (by norm_num)
  refine ⟨r, h1, ?_⟩
  have he : (1 : ℚ) / (2 * 10 ^ 1) = 1 / 20 := by norm_num
  rwa [he] at h2

/-! ## Scan facts -/

theorem runScan_stopped : ∀ (devices : List Device) (st : ScanState),
    st.stopped = true → runScan devices st = st := by
  intro devices
  induction devices with
  | nil => intro st _; rfl
  | cons d rest ih =>
    intro st h
    unfold runScan
    rw [if_pos h]

theorem runScan_no_match : ∀ (devices : List Device) (st : ScanState),
    (∀ d ∈ devices, matchesAirthings d = false) → runScan devices st = st := by
  intro devices
  induction devices with
  | nil => intro st _; rfl
  | cons d rest ih =>
    intro st h
    unfold runScan
    by_cases hs : st.stopped
    · rw [if_pos hs]
    · rw [if_neg hs]
      have hd : matchesAirthings d = false := h d (by simp)
      rw [show onResult st d = st from by unfold onResult; rw [hd]; rfl]
      exact ih st (fun x hx => h x (by simp [hx]))

theorem runScan_address_invariant : ∀ (devices : List Device) (st : ScanState),
    (st.found = true → st.address.isSome = true) →
    ((runScan devices st).found = true → (runScan devices st).address.isSome = true) := by
  intro devices
  induction devices with
  | nil => intro st h; exact h
  | cons d rest ih =>
    intro st h
    unfold runScan
    by_cases hs : st.stopped
    · rw [if_pos hs]; exact h
    · rw [if_neg hs]
      apply ih
      unfold onResult
      by_cases hm : matchesAirthings d
      · rw [if_pos hm]
        intro
        rfl
      · rw [if_neg hm]
        exact h

/-! ## The claims -/

/-- C1: the claim states that the dispatch in `readSensors` is mutually
exclusive by variant tag — only the Wave procedure for `WAVE`, only the
Wave Plus procedure for `WAVEPLUS`.  The `switch` statement has no `break`, so
for `WAVE` both procedures execute and the Wave result is discarded: on a
service where the Wave read succeeds but the Wave Plus read fails,
`readSensors WAVE` returns `false`. -/
theorem C1_wave_dispatch_runs_both_procedures :
    readSensorsRuns .WAVE = [.wave, .wavePlus] ∧
      readSensorsRuns .WAVE ≠ [.wave] ∧
      readSensorsRuns .WAVEPLUS = [.wavePlus] ∧
      (readWaveSensors svcWaveBufNull {}).1 = true ∧
      (readSensors .WAVE svcWaveBufNull {}).map Prod.fst = some false := by
  refine ⟨rfl, by decide, rfl, ?_, ?_⟩
  · with_unfolding_all decide
  · with_unfolding_all decide

/-- C3 counterexample: the claim says a Wave primary-quantity register of 185
decodes to the string `"5.0"`; the Arduino `String(double)` constructor
defaults to 2 decimal places, so the sketch produces `"5.00"`. -/
theorem C3_counterexample_radon_default_format :
    (readWaveSensors svcWaveBufNull {}).2.radon ≠ "5.0" ∧
      (readWaveSensors svcWaveBufNull {}).2.radon = "5.00" := by
  constructor
  · with_unfolding_all decide
  · with_unfolding_all decide

/-- C3 (amended): the Wave decoder maps the temperature register, reinterpreted
as a signed 16-bit integer, to the 2-decimal string of its value over 100; the
humidity register to the 2-decimal string of its value over 100; and each radon
register to its value over 37 in the `String(double)` default format of
2 decimal places — so register 185 decodes to `"5.00"` (not `"5.0"`).  Each
formatted string is pinned down through the independent reader `parseDec`. -/
theorem C3_amended_variantA_decoder :
    (∀ (t h r24 rlt : Fin 65536) (r0 : WaveReadings),
      (readWaveSensors ⟨some t.val, some h.val, some r24.val, some rlt.val, none⟩ r0).1 = true ∧
      parseDec (readWaveSensors ⟨some t.val, some h.val, some r24.val, some rlt.val,
          none⟩ r0).2.temperature = some ((toShort t.val : ℚ) / 100) ∧
      parseDec (readWaveSensors ⟨some t.val, some h.val, some r24.val, some rlt.val,
          none⟩ r0).2.humidity = some ((h.val : ℚ) / 100) ∧
      (∃ q, parseDec (readWaveSensors ⟨some t.val, some h.val, some r24.val, some rlt.val,
          none⟩ r0).2.radon = some q ∧ |q - (r24.val : ℚ) / 37| ≤ 1 / 200) ∧
      (∃ q, parseDec (readWaveSensors ⟨some t.val, some h.val, some r24.val, some rlt.val,
          none⟩ r0).2.radonLongterm = some q ∧ |q - (rlt.val : ℚ) / 37| ≤ 1 / 200)) ∧
    (readWaveSensors svcWaveBufNull {}).2.radon = "5.00" ∧
    (readWaveSensors svcWaveBufNull {}).2.temperature = "21.50" ∧
    (readWaveSensors ⟨some 63386, some 0, some 0, some 0, none⟩ {}).2.temperature = "-21.50" := by
  refine ⟨?_, by with_unfolding_all decide, by with_unfolding_all decide,
    by with_unfolding_all decide⟩
  intro t h r24 rlt r0
  refine ⟨rfl, ?_, ?_, ?_, ?_⟩
  · exact parseDec_fixedStr_div100 (toShort t.val)
  · exact parseDec_fixedStr_nat100 h.val
  · exact parseDec_fixedStr_close2 _
  · exact parseDec_fixedStr_close2 _

/-- C5: if any of the four Wave characteristic handles is `nullptr`, the Wave
read procedure fails and leaves the readings untouched — no partial reading is
produced, even with the other three present. -/
theorem C5_missing_characteristic_aborts :
    ∀ (svc : RemoteService) (r0 : WaveReadings),
      (svc.temperatureChar = none ∨ svc.humidityChar = none ∨
        svc.radon24Char = none ∨ svc.radonLongTermChar = none) →
      readWaveSensors svc r0 = (false, r0) := by
  intro svc r0 hmiss
  obtain ⟨t, h, r24, rlt, wp⟩ := svc
  rcases t with _ | tv <;> rcases h with _ | hv <;>
    rcases r24 with _ | rv <;> rcases rlt with _ | lv <;>
      first
        | rfl
        | simp_all

/-- C5 witness: a service missing only the temperature characteristic (the
other three present) yields `false` and no reading. -/
theorem C5_missing_characteristic_witness :
    readWaveSensors ⟨none, some 4550, some 185, some 222, none⟩ {} = (false, {}) :=
  C5_missing_characteristic_aborts _ _ (Or.inl rfl)

/-- C9 counterexample: the claim says a null characteristic *handle* is
reported as a failure; in the sketch `pCharacteristic->readValue()` runs before
any null check, so an absent handle is dereferenced (crash), not reported. -/
theorem C9_counterexample_null_handle_deref :
    readWavePlusSensors ⟨none, none, none, none, none⟩ {} = none ∧
      readWavePlusSensors ⟨none, none, none, none, none⟩ {} ≠
        some (false, ({} : WaveReadings)) := by
  exact ⟨rfl, by decide⟩

/-- C9 (amended): the Wave Plus read guards only the raw-data buffer: a null
buffer is reported as failure without decoding, while a null characteristic
handle is dereferenced before any check (the decode is unreachable in both
cases, but the handle case crashes rather than reporting failure). -/
theorem C9_amended_null_buffer_guarded :
    ∀ (svc : RemoteService) (r0 : WaveReadings),
      (svc.wavePlusChar = some none → readWavePlusSensors svc r0 = some (false, r0)) ∧
      (svc.wavePlusChar = none → readWavePlusSensors svc r0 = none) := by
  intro svc r0
  constructor <;> intro h <;> (unfold readWavePlusSensors; rw [h])

/-- C9 witness: both branches of the amended claim at concrete services. -/
theorem C9_amended_witness :
    readWavePlusSensors svcPlusBufNull {} = some (false, ({} : WaveReadings)) ∧
      readWavePlusSensors ⟨none, none, none, none, none⟩ {} = none :=
  ⟨(C9_amended_null_buffer_guarded svcPlusBufNull {}).1 rfl,
    (C9_amended_null_buffer_guarded ⟨none, none, none, none, none⟩ {}).2 rfl⟩

/-- The all-zero raw record. -/
def bufZero16 : List ℕ := List.replicate 16 0

/-- A raw record equal to `bufZero16` on its first 10 bytes, with pressure
bytes `0x40 0x1F` (8000 little-endian) at offsets 10–11. -/
def bufPress : List ℕ := [0, 0, 0, 0, 0, 0, 0, 0, 0, 0, 64, 31, 0, 0, 0, 0]

/-- C4 counterexample: the claim calls the Wave Plus record a 10-byte buffer,
yet places pressure in the 16-bit field after the temperature bytes 8–9.  The
struct the sketch overlays spans 16 bytes: two buffers that agree on their
first 10 bytes decode to different pressures, read from bytes 10–11. -/
theorem C4_counterexample_record_is_sixteen_bytes :
    bufZero16.take 10 = bufPress.take 10 ∧
      (readWavePlusSensors ⟨none, none, none, none, some (some bufZero16)⟩ {}).map
        (fun pr => pr.2.pressure) = some ("0.0") ∧
      (readWavePlusSensors ⟨none, none, none, none, some (some bufPress)⟩ {}).map
        (fun pr => pr.2.pressure) = some ("160.0") := by
  refine ⟨by decide, ?_, ?_⟩
  · with_unfolding_all decide
  · with_unfolding_all decide

/-- C4 (amended): for every Wave Plus raw buffer the decoder reads byte 0 as
the plain-decimal version, byte 1 as humidity over 2 with 2 decimals, byte 2 as
plain-decimal ambient light, the little-endian 16-bit fields at bytes 4–5 and
6–7 as plain-decimal radon averages, bytes 8–9 as temperature over 100 with
2 decimals and no sign reinterpretation, bytes 10–11 as pressure over 50 with
1 decimal, and bytes 12–13 / 14–15 as plain-decimal co2 / voc — a 16-byte
record, not a 10-byte one; a pressure field of 8000 decodes to `"160.0"`. -/
theorem C4_amended_variantB_decoder :
    (∀ (bytes : List ℕ) (r0 : WaveReadings),
      ∃ r, readWavePlusSensors ⟨none, none, none, none, some (some bytes)⟩ r0 =
          some (true, r) ∧
        parseDec r.version = some ((byteAt bytes 0 : ℚ)) ∧
        parseDec r.humidity = some ((byteAt bytes 1 : ℚ) / 2) ∧
        parseDec r.ambientLight = some ((byteAt bytes 2 : ℚ)) ∧
        parseDec r.radon = some ((le16 bytes 4 : ℚ)) ∧
        parseDec r.radonLongterm = some ((le16 bytes 6 : ℚ)) ∧
        parseDec r.temperature = some ((le16 bytes 8 : ℚ) / 100) ∧
        (∃ q, parseDec r.pressure = some q ∧ |q - (le16 bytes 10 : ℚ) / 50| ≤ 1 / 20) ∧
        parseDec r.co2 = some ((le16 bytes 12 : ℚ)) ∧
        parseDec r.voc = some ((le16 bytes 14 : ℚ))) ∧
    (readWavePlusSensors ⟨none, none, none, none, some (some bufPress)⟩ {}).map
      (fun pr => pr.2.pressure) = some ("160.0") := by
  refine ⟨?_, by with_unfolding_all decide⟩
  intro bytes r0
  refine ⟨_, rfl, ?_, ?_, ?_, ?_, ?_, ?_, ?_, ?_, ?_⟩
  · exact parseDec_natToStr _
  · exact parseDec_fixedStr_half _
  · exact parseDec_natToStr _
  · exact parseDec_natToStr _
  · exact parseDec_natToStr _
  · exact parseDec_fixedStr_nat100 _
  · exact parseDec_fixedStr_close1 _
  · exact parseDec_natToStr _
  · exact parseDec_natToStr _

/-- C6: the publish pipeline attempts the mandatory block first in every
variant, the Wave Plus block only for `WAVEPLUS`; topics are attempted in
order, the attempted list is a prefix of the full topic order, success means
every applicable topic was attempted and accepted, and the first failing
publish ends the pipeline with `false` — every earlier attempt succeeded and
nothing after the failure is attempted. -/
theorem C6_publish_first_failure_aborts :
    ∀ (b1 b2 b3 b4 b5 b6 b7 b8 b9 : Bool) (product : AirthingsProduct),
      Topic.radon24 ∈ (publishStage ⟨b1, b2, b3, b4, b5, b6, b7, b8, b9⟩ product).2 ∧
      ((publishStage ⟨b1, b2, b3, b4, b5, b6, b7, b8, b9⟩ product).1 = true →
        (publishStage ⟨b1, b2, b3, b4, b5, b6, b7, b8, b9⟩ product).2 = topicsFor product) ∧
      (publishStage ⟨b1, b2, b3, b4, b5, b6, b7, b8, b9⟩ product).2 =
        (topicsFor product).take
          (publishStage ⟨b1, b2, b3, b4, b5, b6, b7, b8, b9⟩ product).2.length ∧
      ((publishStage ⟨b1, b2, b3, b4, b5, b6, b7, b8, b9⟩ product).1 = true ↔
        ∀ t ∈ topicsFor product, pubOk ⟨b1, b2, b3, b4, b5, b6, b7, b8, b9⟩ t = true) ∧
      ((publishStage ⟨b1, b2, b3, b4, b5, b6, b7, b8, b9⟩ product).1 = false →
        ∃ t, (publishStage ⟨b1, b2, b3, b4, b5, b6, b7, b8, b9⟩ product).2.getLast? = some t ∧
          pubOk ⟨b1, b2, b3, b4, b5, b6, b7, b8, b9⟩ t = false ∧
          ∀ t2 ∈ (publishStage ⟨b1, b2, b3, b4, b5, b6, b7, b8, b9⟩ product).2.dropLast,
            pubOk ⟨b1, b2, b3, b4, b5, b6, b7, b8, b9⟩ t2 = true) ∧
      (∀ t ∈ wavePlusTopics,
        t ∈ (publishStage ⟨b1, b2, b3, b4, b5, b6, b7, b8, b9⟩ product).2 →
          product = .WAVEPLUS) := by
  decide

/-- C6 witness: with an all-accepting broker the Wave Plus pass attempts
exactly the full topic order. -/
theorem C6_publish_witness :
    (publishStage ⟨true, true, true, true, true, true, true, true, true⟩ .WAVEPLUS).2 =
      topicsFor .WAVEPLUS :=
  (C6_publish_first_failure_aborts true true true true true true true true true
    .WAVEPLUS).2.1 (by decide)

/-- C7: a scan returns the initial (not-found) state when no delivered
advertisement matches either service UUID, and stops at the first matching
advertisement, recording exactly its address — advertisements after the first
match never affect the result. -/
theorem C7_discovery_first_match :
    (∀ devices : List Device, (∀ d ∈ devices, matchesAirthings d = false) →
      runScan devices initScanState = initScanState) ∧
    (∀ (pre : List Device) (dv : Device) (post : List Device),
      (∀ d ∈ pre, matchesAirthings d = false) → matchesAirthings dv = true →
      runScan (pre ++ dv :: post) initScanState =
        { found := true, address := some dv.address, stopped := true }) := by
  constructor
  · intro devices h
    exact runScan_no_match devices initScanState h
  · intro pre dv post hpre hdv
    induction pre with
    | nil =>
      show runScan (dv :: post) initScanState = _
      unfold runScan
      rw [if_neg (by simp [initScanState])]
      rw [show onResult initScanState dv =
        { found := true, address := some dv.address, stopped := true } from by
          unfold onResult
          rw [hdv]
          rfl]
      exact runScan_stopped post _ rfl
    | cons d rest ih =>
      show runScan (d :: (rest ++ dv :: post)) initScanState = _
      unfold runScan
      rw [if_neg (by simp [initScanState])]
      have hd : matchesAirthings d = false := hpre d (by simp)
      rw [show onResult initScanState d = initScanState from by
        unfold onResult
        rw [hd]
        rfl]
      exact ih (fun x hx => hpre x (by simp [hx]))

/-- C7 witness: a non-matching advertisement followed by a Wave advertisement
and then further advertisements yields the Wave address with the scan
stopped. -/
theorem C7_discovery_witness :
    runScan [devOther, devWave, devPlus] initScanState =
      { found := true, address := some devWave.address, stopped := true } :=
  C7_discovery_first_match.2 [devOther] devWave [devPlus] (by decide) (by decide)

/-- C2 counterexample: in an environment where the connection opens, a service
is found and the sensor read fails, `getAndRecordReadings` returns `false`
with the connection still open — `client->disconnect()` is skipped on the
read-failure exit path (line 234 returns before the disconnect at 237). -/
theorem C2_counterexample_connection_left_open :
    (getAndRecordReadings envLeak).map AcqResult.retval = some false ∧
      (getAndRecordReadings envLeak).map AcqResult.connOpenAtReturn = some true := by
  constructor
  · with_unfolding_all decide
  · with_unfolding_all decide

/-- C2 (amended): whenever `getAndRecordReadings` returns (does not crash), the
connection is open at return exactly on the read-failure path — i.e. it is
closed on the success path and on every other failure path, but the exit taken
when `readSensors` returns `false` leaks the open connection. -/
theorem C2_amended_disconnect_except_read_failure :
    ∀ (env : Env) (res : AcqResult), getAndRecordReadings env = some res →
      (res.connOpenAtReturn = true ↔
        (env.connectOk = true ∧ ∃ svc, (selectService env).2 = some svc ∧
          ∃ r, readSensors (selectService env).1 svc {} = some (false, r))) := by
  intro env res h
  unfold getAndRecordReadings at h
  split at h
  · rename_i hc
    obtain rfl := Option.some.inj h
    simp [hc]
  · rename_i hc
    have hc2 : env.connectOk = true := by
      revert hc
      cases env.connectOk <;> simp
    split at h
    · rename_i hsvc
      obtain rfl := Option.some.inj h
      rw [hsvc]
      simp
    · rename_i svc hsvc
      split at h
      · exact absurd h (by simp)
      · rename_i r hread
        obtain rfl := Option.some.inj h
        rw [hsvc]
        constructor
        · intro _
          exact ⟨hc2, svc, rfl, r, hread⟩
        · intro _
          rfl
      · rename_i r hread
        have hopen : res.connOpenAtReturn = false := by
          split at h
          · obtain rfl := Option.some.inj h
            rfl
          · split at h
            · obtain rfl := Option.some.inj h
              rfl
            · obtain rfl := Option.some.inj h
              rfl
        rw [hopen, hsvc]
        constructor
        · intro hfo
          exact absurd hfo (by simp)
        · rintro ⟨_, svc2, hsvc2, r2, hread2⟩
          obtain rfl := Option.some.inj hsvc2
          rw [hread] at hread2
          have hcontra := congrArg Prod.fst (Option.some.inj hread2)
          simp at hcontra

/-- C2 witness: the amended equivalence instantiated at the leaking
environment. -/
theorem C2_amended_witness :
    (AcqResult.mk false true []).connOpenAtReturn = true ↔
      (envLeak.connectOk = true ∧ ∃ svc, (selectService envLeak).2 = some svc ∧
        ∃ r, readSensors (selectService envLeak).1 svc {} = some (false, r)) :=
  C2_amended_disconnect_except_read_failure envLeak ⟨false, true, []⟩ (by decide)

/-- C8 counterexample: a wake cycle that discovers a real Wave (Wave service
present, Wave Plus characteristic absent from it) dereferences a null
characteristic handle via the fall-through dispatch and crashes — it does not
end in a timed sleep of either duration. -/
theorem C8_counterexample_wave_cycle_crashes :
    setupCycle [devWave] envCrash = .crash .nullCharacteristic ∧
      ∀ s : ℕ, setupCycle [devWave] envCrash ≠ .sleepSeconds s := by
  have h1 : runScan [devWave] initScanState =
      { found := true, address := some ("11:22"), stopped := true } := by decide
  have h2 : getAndRecordReadings envCrash = none := by with_unfolding_all decide
  have hmain : setupCycle [devWave] envCrash = .crash .nullCharacteristic := by
    unfold setupCycle
    rw [h1, h2]
    rfl
  refine ⟨hmain, ?_⟩
  intro s hs
  rw [hmain] at hs
  exact absurd hs (by simp)

/-- C8 (amended): whenever a wake cycle does not crash, it ends in a timed
sleep of exactly one of the two durations — 30 seconds, or 3600 seconds
precisely when the scan found a device and acquisition plus publishing
succeeded; the choice is a function of this cycle's environment alone. -/
theorem C8_amended_two_sleep_durations :
    ∀ (devices : List Device) (env : Env),
      (∀ site, setupCycle devices env ≠ .crash site) →
      READ_WAIT_RETRY_SECONDS = 30 ∧ READ_WAIT_SECONDS = 3600 ∧
      (setupCycle devices env = .sleepSeconds READ_WAIT_RETRY_SECONDS ∨
        setupCycle devices env = .sleepSeconds READ_WAIT_SECONDS) ∧
      (setupCycle devices env = .sleepSeconds READ_WAIT_SECONDS ↔
        ((runScan devices initScanState).found = true ∧
          (getAndRecordReadings env).map AcqResult.retval = some true)) := by
  intro devices env hnc
  by_cases hf : (runScan devices initScanState).found = false
  · have hsetup : setupCycle devices env = .sleepSeconds READ_WAIT_RETRY_SECONDS := by
      unfold setupCycle
      rw [if_pos hf]
    refine ⟨rfl, rfl, Or.inl hsetup, ?_, ?_⟩
    · intro hs
      rw [hsetup] at hs
      exact absurd (CycleOutcome.sleepSeconds.inj hs) (by decide)
    · rintro ⟨hfound, _⟩
      rw [hfound] at hf
      exact absurd hf (by simp)
  · have hfound : (runScan devices initScanState).found = true := by
      revert hf
      cases (runScan devices initScanState).found <;> simp
    rcases haddr : (runScan devices initScanState).address with _ | a
    · exfalso
      apply hnc CrashSite.uninitAddress
      unfold setupCycle
      rw [if_neg hf, haddr]
    · rcases hg : getAndRecordReadings env with _ | res
      · exfalso
        apply hnc CrashSite.nullCharacteristic
        unfold setupCycle
        rw [if_neg hf, haddr, hg]
      · obtain ⟨rv, co, att⟩ := res
        cases rv with
        | true =>
          have hsetup : setupCycle devices env = .sleepSeconds READ_WAIT_SECONDS := by
            unfold setupCycle
            rw [if_neg hf, haddr, hg]
            rfl
          refine ⟨rfl, rfl, Or.inr hsetup, ?_, ?_⟩
          · intro _
            exact ⟨hfound, rfl⟩
          · intro _
            exact hsetup
        | false =>
          have hsetup : setupCycle devices env = .sleepSeconds READ_WAIT_RETRY_SECONDS := by
            unfold setupCycle
            rw [if_neg hf, haddr, hg]
            rfl
          refine ⟨rfl, rfl, Or.inl hsetup, ?_, ?_⟩
          · intro hs
            rw [hsetup] at hs
            exact absurd (CycleOutcome.sleepSeconds.inj hs) (by decide)
          · rintro ⟨_, hmap⟩
            simp at hmap

/-- C8 witness: a cycle with an empty scan window does not crash and sleeps one
of the two durations. -/
theorem C8_amended_witness :
    setupCycle [] envHappy = .sleepSeconds READ_WAIT_RETRY_SECONDS ∨
      setupCycle [] envHappy = .sleepSeconds READ_WAIT_SECONDS :=
  (C8_amended_two_sleep_durations [] envHappy (by decide)).2.2.1

/-- C10: the recorded address is read only after a device was found, and
whenever the callback reports `found` the address pointer has been assigned:
the uninitialised-address dereference is unreachable in every cycle. -/
theorem C10_address_initialized_when_found :
    (∀ (devices : List Device) (env : Env),
      setupCycle devices env ≠ .crash .uninitAddress) ∧
    (∀ devices : List Device, (runScan devices initScanState).found = true →
      (runScan devices initScanState).address.isSome = true) := by
  have hinv : ∀ devices : List Device, (runScan devices initScanState).found = true →
      (runScan devices initScanState).address.isSome = true := by
    intro devices
    apply runScan_address_invariant devices initScanState
    intro hcontra
    simp [initScanState] at hcontra
  refine ⟨?_, hinv⟩
  intro devices env
  unfold setupCycle
  by_cases hf : (runScan devices initScanState).found = false
  · rw [if_pos hf]
    simp
  · rw [if_neg hf]
    have hfound : (runScan devices initScanState).found = true := by
      revert hf
      cases (runScan devices initScanState).found <;> simp
    have hsome := hinv devices hfound
    rcases haddr : (runScan devices initScanState).address with _ | a
    · rw [haddr] at hsome
      simp at hsome
    · rcases hg : getAndRecordReadings env with _ | res
      · simp
      · obtain ⟨rv, co, att⟩ := res
        cases rv <;> simp

/-- C10 witness: after a scan that found a Wave, the stored address is
present. -/
theorem C10_address_witness :
    (runScan [devWave] initScanState).address.isSome = true :=
  C10_address_initialized_when_found.2 [devWave] (by decide)
